import Mathlib

/-!
Shallow embedding of the ETL pipeline of the `ml-project` repository:
  - `clean_usda_corn_yield.py`  (yield cleaner)
  - `merge_yield_weather.py`    (raw-sum merger variant)
  - `fix_weather_and_merge.py`  (calendar-corrected merger variant)
  - `download_us_weather_power.py` (weather fetcher; its growing-season
    aggregation pass, which performs no dropna)

Numeric CSV cells are modelled post-`pd.to_numeric`: a cell is an
`Option Int` / `Option ℚ`, `none` standing for NaN (missing or
non-numeric).  String cells are `Option String`, `none` standing for a
NaN read from the CSV; `astype(str)` turns that NaN into the literal
string nan (upper-cased to NAN by `.str.upper()`), exactly as pandas
does.  Pandas group-by sorts group keys ascending; `sort_values` in the
scripts always runs on key-unique tables, so any comparison sort gives
the pandas result and we use `List.insertionSort`.

Rational arithmetic: `Rat.add`, `Rat.mul`, `Rat.div` are `@[irreducible]`
in the library, which stops `decide` from evaluating concrete pipeline
runs.  We therefore compute with the reducible wrappers `qAdd`, `qMul`,
`qDiv`, `qSum` built on `mkRat` and prove once (`qAdd_eq` …) that they
agree with the field operations of `ℚ`, so claim statements can use the
ordinary `+`, `*`, `/` and `List.sum`.
-/

deriving instance DecidableEq for Except

/-- Reducible rational addition: agrees with `· + ·` (see `qAdd_eq`). -/
def qAdd (a b : ℚ) : ℚ := mkRat (a.num * b.den + b.num * a.den) (a.den * b.den)

/-- Reducible rational multiplication: agrees with `· * ·` (see `qMul_eq`). -/
def qMul (a b : ℚ) : ℚ := mkRat (a.num * b.num) (a.den * b.den)

/-- Reducible rational division: agrees with `· / ·` (see `qDiv_eq`). -/
def qDiv (a b : ℚ) : ℚ := Rat.divInt (a.num * b.den) (a.den * b.num)

/-- Reducible list sum over `ℚ`: agrees with `List.sum` (see `qSum_eq`). -/
def qSum (l : List ℚ) : ℚ := l.foldr qAdd 0

/-- Errors the scripts can raise, by raise-site shape:
`missingColumns` is the yield cleaner's ValueError (full missing list and
found list); `missingColumn` is `merge_yield_weather.py`'s per-column
ValueError (file tag, the one column, found list); `keyError` is the
pandas KeyError raised by `df[col]` on an absent column (as in
`fix_weather_and_merge.py`, which never pre-checks columns);
`illegalMonth` is `calendar.monthrange`'s IllegalMonthError on a month
outside 1..12. -/
inductive PyError where
  | missingColumns (missing found : List String)
  | missingColumn (file col : String) (found : List String)
  | keyError (col : String)
  | illegalMonth (m : Int)
deriving DecidableEq

/-- A (State, Year) key. -/
abbrev StateYear := String × Int

/-- String comparison as pandas sorts object keys: lexicographic on the
character sequence.  (Core `String.lt` is semantically the same order but
its decision procedure does not kernel-reduce, so we state it on
`String.data`.) -/
def strLt (a b : String) : Prop := a.data < b.data

instance : DecidableRel strLt := fun a b =>
  inferInstanceAs (Decidable (a.data < b.data))

/-- Lexicographic order on (State, Year), the ascending order pandas uses
for sorted group keys and `sort_values(["State", "Year"])`. -/
def keyLe (a b : StateYear) : Prop :=
  strLt a.1 b.1 ∨ (a.1 = b.1 ∧ a.2 ≤ b.2)

instance : DecidableRel keyLe := fun a b =>
  inferInstanceAs (Decidable (strLt a.1 b.1 ∨ (a.1 = b.1 ∧ a.2 ≤ b.2)))

/-- `df.drop_duplicates(subset=key)`: keep the first occurrence (in list
order) of each key, preserving the order of survivors.  `seen` is the set
of keys already kept. -/
def dropDupBy {α κ : Type} [DecidableEq κ] (key : α → κ) :
    List κ → List α → List α
  | _, [] => []
  | seen, a :: as =>
    if key a ∈ seen then dropDupBy key seen as
    else a :: dropDupBy key (key a :: seen) as

/-- Sorted deduplicated group keys, as pandas `groupby(...)` (with its
default `sort=True`) enumerates them. -/
def sortedGroupKeys (l : List StateYear) : List StateYear :=
  l.dedup.insertionSort keyLe

/-- `.str.strip()`: strip leading and trailing whitespace (stated on the
character list so that it kernel-reduces; `String.trim` is semantically
identical). -/
def pyStrip (s : String) : String :=
  ⟨((s.data.dropWhile Char.isWhitespace).reverse.dropWhile
      Char.isWhitespace).reverse⟩

/-- `.str.upper()` (stated on the character list so that it
kernel-reduces). -/
def pyUpper (s : String) : String := ⟨s.data.map Char.toUpper⟩

/-- `astype(str).str.strip().str.upper()` on a possibly-NaN string cell:
a NaN cell becomes the string nan under `astype(str)`, which upper-cases
to NAN — it is NOT a null afterwards, so later `dropna` calls never drop
it. -/
def normState : Option String → String
  | none => "NAN"
  | some s => pyUpper (pyStrip s)

/-- `calendar.isleap`. -/
def isleap (y : Int) : Bool :=
  y % 4 == 0 && (y % 100 != 0 || y % 400 == 0)

/-- `calendar.monthrange(year, month)[1]` for a valid month 1..12: the
number of days in the month. -/
def get_days_in_month (y m : Int) : Int :=
  if m = 2 then (if isleap y then 29 else 28)
  else if m = 4 ∨ m = 6 ∨ m = 9 ∨ m = 11 then 30
  else 31

/-- The fixed growing-season months Apr–Sep (`GROWING_MONTHS` in all
three scripts). -/
def GROWING_MONTHS : List Int := [4, 5, 6, 7, 8, 9]

/-! ### Yield cleaner (`clean_usda_corn_yield.py`) -/

/-- Columns required by the yield cleaner (`keep_cols`). -/
def keep_cols : List String := ["Year", "State", "Value"]

/-- A raw yield CSV row, numeric cells already put through
`pd.to_numeric`: `year` and `value` are `none` when the cell was missing
or non-numeric (for `value`, after comma removal and stripping, which
preserve sign).  The same shape also models the rows of
`usda_corn_yield_clean.csv` as re-read by the two merger scripts, with
`value` standing for the corn_yield_bu_acre cell. -/
structure RawYieldRow where
  year : Option Int
  state : Option String
  value : Option ℚ
deriving DecidableEq

/-- A raw yield CSV file: its header columns and its rows. -/
structure RawYieldFile where
  columns : List String
  rows : List RawYieldRow
deriving DecidableEq

/-- A row of the clean yield table (`usda_corn_yield_clean.csv`). -/
structure CleanYieldRow where
  year : Int
  state : String
  corn_yield_bu_acre : ℚ
deriving DecidableEq

/-- Key of a clean yield row. -/
def CleanYieldRow.key (r : CleanYieldRow) : StateYear := (r.state, r.year)

/-- The row-level part of the yield cleaning shared by all three scripts:
coerce Year and the yield value, normalize State, and drop rows with null
Year or null yield (`dropna` — note a null State is not dropped, having
already become the string NAN). -/
def validYieldRows (rows : List RawYieldRow) : List CleanYieldRow :=
  rows.filterMap fun r =>
    match r.year, r.value with
    | some y, some v =>
      some { year := y, state := normState r.state, corn_yield_bu_acre := v }
    | _, _ => none

/-- `clean_usda_corn_yield.py`: check required columns (raising one
ValueError listing all missing columns and the found columns), then
clean rows, deduplicate on (Year, State) keeping the first occurrence,
and finally sort by (State, Year) ascending.  The deduplication runs
BEFORE the sort, on input order. -/
def clean_usda_corn_yield (f : RawYieldFile) :
    Except PyError (List CleanYieldRow) :=
  let missing := keep_cols.filter fun c => decide (c ∉ f.columns)
  if missing ≠ [] then
    .error (.missingColumns missing f.columns)
  else
    .ok ((dropDupBy CleanYieldRow.key [] (validYieldRows f.rows)).insertionSort
      fun a b => keyLe a.key b.key)

/-- Serialization of the clean yield table to CSV text
(`df.to_csv(OUTPUT_CSV, index=False)`): a header line then one line per
row, in table order. -/
def cleanYieldCsv (f : RawYieldFile) : Except PyError String :=
  (clean_usda_corn_yield f).map fun rows =>
    String.intercalate ("\x0a")
      (("Year,State,corn_yield_bu_acre") ::
        rows.map fun r =>
          toString r.year ++ "," ++ r.state ++ "," ++
            toString r.corn_yield_bu_acre)

/-! ### Monthly weather loading (shared by the two merger scripts) -/

/-- A raw monthly-weather CSV row, numeric cells post-`pd.to_numeric`. -/
structure RawWeatherRow where
  state : Option String
  year : Option Int
  month : Option Int
  t2m : Option ℚ
  prectotcorr : Option ℚ
deriving DecidableEq

/-- A raw monthly-weather CSV file: header columns and rows. -/
structure RawWeatherFile where
  columns : List String
  rows : List RawWeatherRow
deriving DecidableEq

/-- A cleaned monthly weather record, after state normalization and
`dropna(subset=["State", "Year", "Month", "T2M", "PRECTOTCORR"])` (the
State entry of the subset never fires: `astype(str)` has already turned a
null State into the string NAN). -/
structure MonthlyWeatherRecord where
  state : String
  year : Int
  month : Int
  t2m : ℚ
  prectotcorr : ℚ
deriving DecidableEq

/-- Key of a monthly record. -/
def MonthlyWeatherRecord.key (r : MonthlyWeatherRecord) : StateYear :=
  (r.state, r.year)

/-- Normalize and drop-NA the monthly weather rows, as both merger
scripts do before aggregating. -/
def cleanWeatherRows (rows : List RawWeatherRow) :
    List MonthlyWeatherRecord :=
  rows.filterMap fun r =>
    match r.year, r.month, r.t2m, r.prectotcorr with
    | some y, some m, some t, some p =>
      some { state := normState r.state, year := y, month := m,
             t2m := t, prectotcorr := p }
    | _, _, _, _ => none

/-- A growing-season weather row
(`usa_state_yearly_weather_growing_2000_2025.csv` and the `w_growing`
frame of both merger scripts). -/
structure GrowingSeasonWeather where
  state : String
  year : Int
  avg_temp_growing : ℚ
  total_rain_growing : ℚ
deriving DecidableEq

/-- Key of a growing-season weather row. -/
def GrowingSeasonWeather.key (g : GrowingSeasonWeather) : StateYear :=
  (g.state, g.year)

/-- `merge_yield_weather.py`'s aggregation: filter to the growing months,
group by (State, Year), take the mean of T2M and the raw sum of
PRECTOTCORR. -/
def growingAgg (rows : List MonthlyWeatherRecord) :
    List GrowingSeasonWeather :=
  let fr := rows.filter fun r => decide (r.month ∈ GROWING_MONTHS)
  (sortedGroupKeys (fr.map MonthlyWeatherRecord.key)).map fun k =>
    let g := fr.filter fun r => decide (r.key = k)
    { state := k.1, year := k.2,
      avg_temp_growing := qDiv (qSum (g.map (·.t2m))) (g.length : ℚ),
      total_rain_growing := qSum (g.map (·.prectotcorr)) }

/-- A cleaned monthly record extended with the `monthly_rain_mm` column
added by `fix_weather_and_merge.py`. -/
structure RainMonthlyRow where
  state : String
  year : Int
  month : Int
  t2m : ℚ
  prectotcorr : ℚ
  monthly_rain_mm : ℚ
deriving DecidableEq

/-- One row of the `monthly_rain_mm` computation of
`fix_weather_and_merge.py`: `row["PRECTOTCORR"] *
get_days_in_month(row["Year"], row["Month"])`. -/
def withMonthlyRain (r : MonthlyWeatherRecord) : RainMonthlyRow :=
  { state := r.state, year := r.year, month := r.month,
    t2m := r.t2m, prectotcorr := r.prectotcorr,
    monthly_rain_mm :=
      qMul r.prectotcorr ((get_days_in_month r.year r.month : Int) : ℚ) }

/-- The `w.apply(..., axis=1)` pass of `fix_weather_and_merge.py`: runs
over ALL cleaned rows (before the growing-season filter) in order, and
raises `calendar`'s IllegalMonthError at the first row whose Month is
outside 1..12. -/
def addMonthlyRain : List MonthlyWeatherRecord →
    Except PyError (List RainMonthlyRow)
  | [] => .ok []
  | r :: rs =>
    if 1 ≤ r.month ∧ r.month ≤ 12 then
      match addMonthlyRain rs with
      | .error e => .error e
      | .ok ws => .ok (withMonthlyRain r :: ws)
    else .error (.illegalMonth r.month)

/-- `fix_weather_and_merge.py`'s aggregation: filter to the growing
months, group by (State, Year), take the mean of T2M and the sum of the
calendar-corrected `monthly_rain_mm`. -/
def growingAggFix (rows : List RainMonthlyRow) : List GrowingSeasonWeather :=
  let fr := rows.filter fun r => decide (r.month ∈ GROWING_MONTHS)
  (sortedGroupKeys (fr.map fun r => (r.state, r.year))).map fun k =>
    let g := fr.filter fun r => decide ((r.state, r.year) = k)
    { state := k.1, year := k.2,
      avg_temp_growing := qDiv (qSum (g.map (·.t2m))) (g.length : ℚ),
      total_rain_growing := qSum (g.map (·.monthly_rain_mm)) }

/-! ### The two merger mains -/

/-- A row of the final merged dataset (`final_corn_yield_weather.csv` /
`final_corn_yield_weather_fixed.csv`). -/
structure FinalRow where
  year : Int
  state : String
  corn_yield_bu_acre : ℚ
  avg_temp_growing : ℚ
  total_rain_growing : ℚ
deriving DecidableEq

/-- Key of a final row. -/
def FinalRow.key (r : FinalRow) : StateYear := (r.state, r.year)

/-- Columns `merge_yield_weather.py` requires of the yield file. -/
def mergeYieldCols : List String := ["Year", "State", "corn_yield_bu_acre"]

/-- Columns `merge_yield_weather.py` requires of the weather file. -/
def mergeWeatherCols : List String :=
  ["State", "Year", "Month", "T2M", "PRECTOTCORR"]

/-- `merge_yield_weather.py`'s column check: a `for` loop that raises a
ValueError at the FIRST missing column, naming that one column and the
found columns. -/
def checkColsEach (tag : String) (req found : List String) :
    Except PyError Unit :=
  match req.find? fun c => decide (c ∉ found) with
  | some c => .error (.missingColumn tag c found)
  | none => .ok ()

/-- Column accesses `df[col]` performed by `fix_weather_and_merge.py`
(which has no explicit check): the first absent column raises a pandas
KeyError naming just that column. -/
def accessCols (req found : List String) : Except PyError Unit :=
  match req.find? fun c => decide (c ∉ found) with
  | some c => .error (.keyError c)
  | none => .ok ()

/-- The yield-side cleaning of `merge_yield_weather.py`: normalize,
coerce, dropna, then `drop_duplicates(subset=["State", "Year"])` keeping
the first occurrence (no sort at this point). -/
def mergeCleanYield (rows : List RawYieldRow) : List CleanYieldRow :=
  dropDupBy CleanYieldRow.key [] (validYieldRows rows)

/-- Inner merge on (State, Year), as `yield_df.merge(w_growing,
on=["State", "Year"], how="inner")`: each yield row pairs with every
growing-weather row carrying the same key. -/
def innerMerge (ys : List CleanYieldRow) (gs : List GrowingSeasonWeather) :
    List FinalRow :=
  ys.flatMap fun y =>
    (gs.filter fun g => decide (g.state = y.state ∧ g.year = y.year)).map
      fun g =>
        { year := y.year, state := y.state,
          corn_yield_bu_acre := y.corn_yield_bu_acre,
          avg_temp_growing := g.avg_temp_growing,
          total_rain_growing := g.total_rain_growing }

/-- The post-merge finalization shared by both mergers:
`.dropna()` (a no-op here — every column of the merged frame is non-null
by construction), `.drop_duplicates(subset=["State", "Year"])`, and
`.sort_values(["State", "Year"])`. -/
def finalizeMerged (l : List FinalRow) : List FinalRow :=
  (dropDupBy FinalRow.key [] l).insertionSort fun a b => keyLe a.key b.key

/-- `merge_yield_weather.py` `main`: check and clean the yield file,
check and clean the weather file, aggregate the growing season with the
raw precipitation sum, inner-merge, finalize. -/
def mergeMain (yf : RawYieldFile) (wf : RawWeatherFile) :
    Except PyError (List FinalRow) :=
  match checkColsEach ("Yield") mergeYieldCols yf.columns with
  | .error e => .error e
  | .ok _ =>
    match checkColsEach ("Weather") mergeWeatherCols wf.columns with
    | .error e => .error e
    | .ok _ =>
      .ok (finalizeMerged (innerMerge (mergeCleanYield yf.rows)
        (growingAgg (cleanWeatherRows wf.rows))))

/-- The column accesses `fix_weather_and_merge.py` makes on the weather
file, in source order. -/
def fixWeatherAccess : List String :=
  ["State", "Year", "Month", "T2M", "PRECTOTCORR"]

/-- The column accesses `fix_weather_and_merge.py` makes on the yield
file, in source order. -/
def fixYieldAccess : List String := ["State", "Year", "corn_yield_bu_acre"]

/-- The yield-side cleaning of `fix_weather_and_merge.py`: normalize,
coerce, dropna — with NO `drop_duplicates` at this stage (unlike
`merge_yield_weather.py`). -/
def fixCleanYield (rows : List RawYieldRow) : List CleanYieldRow :=
  validYieldRows rows

/-- `fix_weather_and_merge.py` `main`: load and clean the weather file
(column accesses can raise KeyError), add `monthly_rain_mm` (can raise
IllegalMonthError), aggregate, then load the yield file (again KeyError
on a missing column), inner-merge and finalize. -/
def fixMain (wf : RawWeatherFile) (yf : RawYieldFile) :
    Except PyError (List FinalRow) :=
  match accessCols fixWeatherAccess wf.columns with
  | .error e => .error e
  | .ok _ =>
    match addMonthlyRain (cleanWeatherRows wf.rows) with
    | .error e => .error e
    | .ok w2 =>
      match accessCols fixYieldAccess yf.columns with
      | .error e => .error e
      | .ok _ =>
        .ok (finalizeMerged (innerMerge (fixCleanYield yf.rows)
          (growingAggFix w2)))

/-! ### Weather fetcher aggregation (`download_us_weather_power.py`) -/

/-- A row appended by the fetch loop of `download_us_weather_power.py`:
State, Year, Month come from the loop variables (never null), while the
two variable values come from `dict.get` on the API payload (`none` when
the "YYYYMM" key is absent, or the value fails `pd.to_numeric`). -/
structure PowerMonthlyRow where
  state : String
  year : Int
  month : Int
  t2m : Option ℚ
  prectotcorr : Option ℚ
deriving DecidableEq

/-- A row of the fetcher's growing-season output.  `avg_temp_growing` is
`none` (NaN) when every growing-month T2M of the group is null; the
pandas `sum` of an all-null column is 0, so `total_rain_growing` is
always a number. -/
structure WeatherGrowingRow where
  state : String
  year : Int
  avg_temp_growing : Option ℚ
  total_rain_growing : ℚ
deriving DecidableEq

/-- The `weather_growing` aggregation of `download_us_weather_power.py`:
filter to growing months, group by (State, Year) — with NO dropna
beforehand — and aggregate with pandas' null-skipping mean and sum. -/
def weather_growing (rows : List PowerMonthlyRow) : List WeatherGrowingRow :=
  let fr := rows.filter fun r => decide (r.month ∈ GROWING_MONTHS)
  (sortedGroupKeys (fr.map fun r => (r.state, r.year))).map fun k =>
    let g := fr.filter fun r => decide ((r.state, r.year) = k)
    let temps := g.filterMap (·.t2m)
    { state := k.1, year := k.2,
      avg_temp_growing :=
        if temps.length = 0 then none
        else some (qDiv (qSum temps) (temps.length : ℚ)),
      total_rain_growing := qSum (g.filterMap (·.prectotcorr)) }


/-! ### Spec-side helpers and concrete inputs used by the claim theorems -/

/-- The spec's "rows with Month in {4..9} of a given (State, Year)": the
growing-season restriction of one group of cleaned monthly records. -/
def growingGroup (rows : List MonthlyWeatherRecord) (k : StateYear) :
    List MonthlyWeatherRecord :=
  (rows.filter fun r => decide (r.month ∈ GROWING_MONTHS)).filter fun r =>
    decide (r.key = k)

/-- The same growing-season group restriction for the fetcher's rows
(whose values may be null). -/
def powerGrowingGroup (rows : List PowerMonthlyRow) (k : StateYear) :
    List PowerMonthlyRow :=
  (rows.filter fun r => decide (r.month ∈ GROWING_MONTHS)).filter fun r =>
    decide ((r.state, r.year) = k)

/-- Does an error carry a list of missing columns (the spec's
"configuration error"), as the yield cleaner's and
`merge_yield_weather.py`'s ValueErrors do?  A pandas KeyError and an
IllegalMonthError do not. -/
def listsMissingColumns : PyError → Bool
  | .missingColumns _ _ => true
  | .missingColumn _ _ _ => true
  | _ => false

/-- The spec's two-month IOWA 2020 example, as a monthly weather file:
month 4 with T2M 10.0 and PRECTOTCORR 3.0, month 5 with T2M 20.0 and
PRECTOTCORR 6.0, no other rows. -/
def exampleWeatherFile : RawWeatherFile :=
  { columns := ["State", "Year", "Month", "T2M", "PRECTOTCORR"],
    rows := [⟨some ("IOWA"), some 2020, some 4, some 10, some 3⟩,
             ⟨some ("IOWA"), some 2020, some 5, some 20, some 6⟩] }

/-- A yield file with the right columns and no rows. -/
def okColsYieldFile : RawYieldFile :=
  { columns := ["Year", "State", "corn_yield_bu_acre"], rows := [] }

/-- A monthly weather file whose header lacks T2M and PRECTOTCORR. -/
def noTempWeatherFile : RawWeatherFile :=
  { columns := ["State", "Year", "Month"], rows := [] }

/-- A yield file whose header lacks both Year and State. -/
def noYearStateYieldFile : RawYieldFile :=
  { columns := ["corn_yield_bu_acre"], rows := [] }

/-- Two yield rows with the same (State, Year) key but different values,
in one order … -/
def dupYieldFileA : RawYieldFile :=
  { columns := ["Year", "State", "Value"],
    rows := [⟨some 2020, some ("IOWA"), some 100⟩,
             ⟨some 2020, some ("IOWA"), some 200⟩] }

/-- … and the same two rows in the opposite order. -/
def dupYieldFileB : RawYieldFile :=
  { columns := ["Year", "State", "Value"],
    rows := [⟨some 2020, some ("IOWA"), some 200⟩,
             ⟨some 2020, some ("IOWA"), some 100⟩] }

/-- A raw yield file whose single row carries the negative value -5
(written `mkRat (-5) 1` so that it kernel-evaluates). -/
def negYieldFile : RawYieldFile :=
  { columns := ["Year", "State", "Value"],
    rows := [⟨some 2020, some ("IOWA"), some (mkRat (-5) 1)⟩] }

/-- A yield file whose rows all carry non-negative values. -/
def nonnegYieldFile : RawYieldFile :=
  { columns := ["Year", "State", "Value"],
    rows := [⟨some 2020, some ("IOWA"), some 180⟩] }

/-- Fetcher rows for IOWA 2020 covering every growing month, each with a
present temperature but a null precipitation value. -/
def nullRainRows : List PowerMonthlyRow :=
  [⟨"IOWA", 2020, 4, some 10, none⟩, ⟨"IOWA", 2020, 5, some 10, none⟩,
   ⟨"IOWA", 2020, 6, some 10, none⟩, ⟨"IOWA", 2020, 7, some 10, none⟩,
   ⟨"IOWA", 2020, 8, some 10, none⟩, ⟨"IOWA", 2020, 9, some 10, none⟩]

/-- A monthly weather file whose single row has a null State and every
other field present. -/
def nanStateWeatherFile : RawWeatherFile :=
  { columns := ["State", "Year", "Month", "T2M", "PRECTOTCORR"],
    rows := [⟨none, some 2020, some 4, some 10, some 3⟩] }

/-- A weather row whose precipitation is null but whose temperature is
present. -/
def nullPrecipRow : RawWeatherRow :=
  ⟨some ("IOWA"), some 2020, some 5, some 20, none⟩

/-- A yield file, in the merger scripts' schema, holding one IOWA 2020
row with value 180. -/
def mergerYieldFile : RawYieldFile :=
  { columns := ["Year", "State", "corn_yield_bu_acre"],
    rows := [⟨some 2020, some ("IOWA"), some 180⟩] }

/-! ### Bridge lemmas: the reducible arithmetic agrees with `ℚ` -/

/-- `qAdd` is rational addition. -/
theorem qAdd_eq (a b : ℚ) : qAdd a b = a + b := by
  unfold qAdd
  have ha : (a.den : ℚ) ≠ 0 := Nat.cast_ne_zero.mpr a.den_nz
  have hb : (b.den : ℚ) ≠ 0 := Nat.cast_ne_zero.mpr b.den_nz
  rw [Rat.mkRat_eq_div]
  push_cast
  conv_rhs => rw [← Rat.num_div_den a, ← Rat.num_div_den b]
  rw [div_add_div _ _ ha hb]
  congr 1
  ring

/-- `qMul` is rational multiplication. -/
theorem qMul_eq (a b : ℚ) : qMul a b = a * b := by
  unfold qMul
  rw [Rat.mkRat_eq_div]
  push_cast
  conv_rhs => rw [← Rat.num_div_den a, ← Rat.num_div_den b]
  rw [div_mul_div_comm]

/-- `qDiv` is rational division. -/
theorem qDiv_eq (a b : ℚ) : qDiv a b = a / b := by
  unfold qDiv
  rw [Rat.divInt_eq_div]
  push_cast
  conv_rhs => rw [← Rat.num_div_den a, ← Rat.num_div_den b]
  rcases eq_or_ne b.num 0 with h0 | h0
  · rw [h0]
    simp
  · have ha : (a.den : ℚ) ≠ 0 := Nat.cast_ne_zero.mpr a.den_nz
    have hb : (b.den : ℚ) ≠ 0 := Nat.cast_ne_zero.mpr b.den_nz
    have hbq : ((b.num : ℚ)) ≠ 0 := Int.cast_ne_zero.mpr h0
    field_simp

/-- `qSum` is `List.sum`. -/
theorem qSum_eq (l : List ℚ) : qSum l = l.sum := by
  induction l with
  | nil => rfl
  | cons a as ih =>
    simp only [qSum, List.foldr_cons, List.sum_cons, qAdd_eq] at ih ⊢
    rw [ih]

/-! ### Lemmas about `dropDupBy` and `sortedGroupKeys` -/

/-- Every survivor of `drop_duplicates` is one of the input rows. -/
theorem mem_of_mem_dropDupBy {α κ : Type} [DecidableEq κ] {key : α → κ} :
    ∀ {l : List α} {seen : List κ} {a : α}, a ∈ dropDupBy key seen l → a ∈ l := by
  intro l
  induction l with
  | nil => intro seen a h; simp [dropDupBy] at h
  | cons b bs ih =>
    intro seen a h
    simp only [dropDupBy] at h
    split at h
    · exact List.mem_cons_of_mem _ (ih h)
    · rcases List.mem_cons.1 h with h | h
      · exact h ▸ List.mem_cons_self _ _
      · exact List.mem_cons_of_mem _ (ih h)

/-- A survivor of `drop_duplicates` is exactly the FIRST input row bearing
its key (pandas `keep="first"` semantics). -/
theorem dropDupBy_spec {α κ : Type} [DecidableEq κ] {key : α → κ} :
    ∀ {l : List α} {seen : List κ} {a : α}, a ∈ dropDupBy key seen l →
      key a ∉ seen ∧ l.find? (fun b => decide (key b = key a)) = some a := by
  intro l
  induction l with
  | nil => intro seen a h; simp [dropDupBy] at h
  | cons b bs ih =>
    intro seen a h
    simp only [dropDupBy] at h
    split at h
    · rename_i hmem
      obtain ⟨hns, hfind⟩ := ih h
      have hne : ¬ (key b = key a) := fun he => hns (he ▸ hmem)
      refine ⟨hns, ?_⟩
      rw [List.find?_cons_of_neg _ (by simpa using hne)]
      exact hfind
    · rename_i hmem
      rcases List.mem_cons.1 h with rfl | h
      · exact ⟨hmem, List.find?_cons_of_pos _ (by simp)⟩
      · obtain ⟨hns, hfind⟩ := ih h
        have hba : ¬ (key b = key a) := by
          intro he
          exact hns (he ▸ List.mem_cons_self _ _)
        have hns2 : key a ∉ seen := fun hs => hns (List.mem_cons_of_mem _ hs)
        refine ⟨hns2, ?_⟩
        rw [List.find?_cons_of_neg _ (by simpa using hba)]
        exact hfind

/-- After `drop_duplicates` the keys are pairwise distinct (and none of
them is in `seen`). -/
theorem nodup_keys_dropDupBy {α κ : Type} [DecidableEq κ] {key : α → κ} :
    ∀ (l : List α) (seen : List κ),
      ((dropDupBy key seen l).map key).Nodup ∧
      ∀ k ∈ (dropDupBy key seen l).map key, k ∉ seen := by
  intro l
  induction l with
  | nil => intro seen; simp [dropDupBy]
  | cons b bs ih =>
    intro seen
    simp only [dropDupBy]
    split
    · exact ih seen
    · rename_i hmem
      obtain ⟨hnd, hout⟩ := ih (key b :: seen)
      simp only [List.map_cons, List.nodup_cons]
      refine ⟨⟨fun hc => (hout _ hc) (List.mem_cons_self _ _), hnd⟩, ?_⟩
      intro k hk
      rcases List.mem_cons.1 hk with rfl | hk
      · exact hmem
      · exact fun hs => (hout _ hk) (List.mem_cons_of_mem _ hs)

/-- `drop_duplicates` keeps at least one row for every input key. -/
theorem key_mem_dropDupBy {α κ : Type} [DecidableEq κ] {key : α → κ} :
    ∀ {l : List α} {seen : List κ} {k : κ}, k ∈ l.map key → k ∉ seen →
      k ∈ (dropDupBy key seen l).map key := by
  intro l
  induction l with
  | nil => intro seen k h; simp at h
  | cons b bs ih =>
    intro seen k h hns
    simp only [List.map_cons, List.mem_cons] at h
    simp only [dropDupBy]
    split
    · rename_i hmem
      rcases h with rfl | h
      · exact absurd hmem hns
      · exact ih h hns
    · rcases h with rfl | h
      · simp
      · by_cases hkb : k = key b
        · simp [hkb]
        · have : k ∉ key b :: seen := by
            intro hc
            rcases List.mem_cons.1 hc with rfl | hc
            · exact hkb rfl
            · exact hns hc
          simp only [List.map_cons, List.mem_cons]
          exact Or.inr (ih h this)

/-- The sorted group keys are exactly the keys occurring in the input. -/
theorem mem_sortedGroupKeys {l : List StateYear} {k : StateYear} :
    k ∈ sortedGroupKeys l ↔ k ∈ l := by
  unfold sortedGroupKeys
  rw [List.mem_insertionSort, List.mem_dedup]

/-- The sorted group keys are pairwise distinct. -/
theorem nodup_sortedGroupKeys (l : List StateYear) :
    (sortedGroupKeys l).Nodup :=
  (List.perm_insertionSort keyLe l.dedup).symm.nodup (List.nodup_dedup l)

/-! ### Inversion and characterization lemmas for the pipelines -/

/-- Inversion: a successful yield-cleaner run returns the sorted
deduplication of the valid rows. -/
theorem clean_usda_ok {f : RawYieldFile} {out : List CleanYieldRow}
    (h : clean_usda_corn_yield f = .ok out) :
    out = (dropDupBy CleanYieldRow.key [] (validYieldRows f.rows)).insertionSort
      (fun a b => keyLe a.key b.key) := by
  simp only [clean_usda_corn_yield] at h
  split at h
  · simp at h
  · exact (Except.ok.inj h).symm

/-- Inversion: a successful raw-sum merger run returns the finalized
inner merge. -/
theorem mergeMain_ok {yf : RawYieldFile} {wf : RawWeatherFile}
    {out : List FinalRow} (h : mergeMain yf wf = .ok out) :
    out = finalizeMerged (innerMerge (mergeCleanYield yf.rows)
      (growingAgg (cleanWeatherRows wf.rows))) := by
  unfold mergeMain at h
  split at h
  · simp at h
  · split at h
    · simp at h
    · exact (Except.ok.inj h).symm

/-- Inversion: a successful calendar-corrected merger run returns the
finalized inner merge over some successfully rain-extended table. -/
theorem fixMain_ok {wf : RawWeatherFile} {yf : RawYieldFile}
    {out : List FinalRow} (h : fixMain wf yf = .ok out) :
    ∃ w2, addMonthlyRain (cleanWeatherRows wf.rows) = .ok w2 ∧
      out = finalizeMerged (innerMerge (fixCleanYield yf.rows)
        (growingAggFix w2)) := by
  unfold fixMain at h
  split at h
  · simp at h
  · split at h
    · simp at h
    · rename_i w2 heq
      split at h
      · simp at h
      · exact ⟨w2, heq, (Except.ok.inj h).symm⟩

/-- A successful `monthly_rain_mm` pass extends every row in place. -/
theorem addMonthlyRain_ok :
    ∀ {rows : List MonthlyWeatherRecord} {w2 : List RainMonthlyRow},
      addMonthlyRain rows = .ok w2 → w2 = rows.map withMonthlyRain := by
  intro rows
  induction rows with
  | nil =>
    intro w2 h
    simpa [addMonthlyRain] using (Except.ok.inj h).symm
  | cons r rs ih =>
    intro w2 h
    unfold addMonthlyRain at h
    split at h
    · split at h
      · simp at h
      · rename_i ws heq
        rw [← Except.ok.inj h, List.map_cons, ih heq]
    · simp at h

/-- Every row of the raw-sum aggregation carries the mean temperature and
raw rain sum of its growing-season group. -/
theorem growingAgg_spec {rows : List MonthlyWeatherRecord}
    {g : GrowingSeasonWeather} (hg : g ∈ growingAgg rows) :
    g.avg_temp_growing = ((growingGroup rows g.key).map (·.t2m)).sum /
      ((growingGroup rows g.key).length : ℚ) ∧
    g.total_rain_growing = ((growingGroup rows g.key).map (·.prectotcorr)).sum := by
  simp only [growingAgg, List.mem_map] at hg
  obtain ⟨k, hk, rfl⟩ := hg
  constructor <;>
    simp only [growingGroup, GrowingSeasonWeather.key, Prod.mk.eta,
      qDiv_eq, qSum_eq]

/-- Every row of the calendar-corrected aggregation carries the mean
temperature and the days-in-month-weighted rain sum of its group. -/
theorem growingAggFix_spec {rows : List MonthlyWeatherRecord}
    {w2 : List RainMonthlyRow} {g : GrowingSeasonWeather}
    (hok : addMonthlyRain rows = .ok w2) (hg : g ∈ growingAggFix w2) :
    g.avg_temp_growing = ((growingGroup rows g.key).map (·.t2m)).sum /
      ((growingGroup rows g.key).length : ℚ) ∧
    g.total_rain_growing = ((growingGroup rows g.key).map fun r =>
      r.prectotcorr * ((get_days_in_month r.year r.month : Int) : ℚ)).sum := by
  obtain rfl := addMonthlyRain_ok hok
  simp only [growingAggFix, List.mem_map] at hg
  obtain ⟨k, hk, rfl⟩ := hg
  constructor <;>
    simp only [growingGroup, GrowingSeasonWeather.key, Prod.mk.eta,
      qDiv_eq, qSum_eq, qMul_eq, List.filter_map, List.map_map,
      Function.comp_def, withMonthlyRain, MonthlyWeatherRecord.key,
      List.length_map]

/-- Rows of the finalized merge all come from the merge itself. -/
theorem mem_of_mem_finalizeMerged {l : List FinalRow} {f : FinalRow}
    (h : f ∈ finalizeMerged l) : f ∈ l :=
  mem_of_mem_dropDupBy ((List.mem_insertionSort _).1 h)

/-- Inversion of inner-merge membership: every merged row is built from a
yield row and a weather row agreeing on (State, Year). -/
theorem mem_innerMerge_spec {ys : List CleanYieldRow}
    {gs : List GrowingSeasonWeather} {f : FinalRow}
    (h : f ∈ innerMerge ys gs) :
    ∃ y ∈ ys, ∃ g ∈ gs, g.state = y.state ∧ g.year = y.year ∧
      f = { year := y.year, state := y.state,
            corn_yield_bu_acre := y.corn_yield_bu_acre,
            avg_temp_growing := g.avg_temp_growing,
            total_rain_growing := g.total_rain_growing } := by
  unfold innerMerge at h
  obtain ⟨y, hy, hf⟩ := List.mem_flatMap.1 h
  obtain ⟨g, hg, rfl⟩ := List.mem_map.1 hf
  obtain ⟨hgs, hcond⟩ := List.mem_filter.1 hg
  have hc := of_decide_eq_true hcond
  exact ⟨y, hy, g, hgs, hc.1, hc.2, rfl⟩

/-- The fetcher aggregation produces a row for every (State, Year) that
has at least one growing-season row — null values or not — whose rain
total sums the non-null precipitation values and whose temperature is
null exactly when every T2M of the group is null. -/
theorem weather_growing_mem {rows : List PowerMonthlyRow} {k : StateYear}
    (h : ∃ r ∈ rows, r.month ∈ GROWING_MONTHS ∧ (r.state, r.year) = k) :
    ∃ g ∈ weather_growing rows, (g.state, g.year) = k ∧
      g.total_rain_growing =
        ((powerGrowingGroup rows k).filterMap (·.prectotcorr)).sum ∧
      (g.avg_temp_growing = none ↔
        (powerGrowingGroup rows k).filterMap (·.t2m) = []) := by
  obtain ⟨r, hr, hm, hkey⟩ := h
  have hfr : r ∈ rows.filter fun r => decide (r.month ∈ GROWING_MONTHS) :=
    List.mem_filter.2 ⟨hr, by simpa using hm⟩
  have hkmem : k ∈ (rows.filter fun r =>
      decide (r.month ∈ GROWING_MONTHS)).map fun r => (r.state, r.year) :=
    List.mem_map.2 ⟨r, hfr, hkey⟩
  have hks := mem_sortedGroupKeys.2 hkmem
  refine ⟨_, List.mem_map.2 ⟨k, hks, rfl⟩, ?_, ?_, ?_⟩
  · exact Prod.mk.eta
  · simp only [powerGrowingGroup, Prod.mk.eta, qSum_eq]
  · simp only [powerGrowingGroup, Prod.mk.eta]
    constructor
    · intro hnone
      by_cases hlen : (((rows.filter fun r => decide (r.month ∈ GROWING_MONTHS)).filter
          fun r => decide ((r.state, r.year) = k)).filterMap (·.t2m)).length = 0
      · exact List.length_eq_zero.1 hlen
      · simp only [if_neg hlen] at hnone
        exact absurd hnone (by simp)
    · intro hnil
      simp only [hnil]
      simp

/-- Keys of the sorted deduplication of any keyed list are pairwise
distinct (the shape shared by the yield cleaner's output and both
mergers' finalization). -/
theorem nodup_keys_sort_dropDup {α : Type} (key : α → StateYear)
    (l : List α) :
    (((dropDupBy key [] l).insertionSort fun a b =>
      keyLe (key a) (key b)).map key).Nodup := by
  have hperm : List.Perm
      (((dropDupBy key [] l).insertionSort fun a b =>
        keyLe (key a) (key b)).map key)
      ((dropDupBy key [] l).map key) :=
    (List.perm_insertionSort _ _).map _
  exact hperm.symm.nodup (nodup_keys_dropDupBy l []).1

/-- A raw weather row with a null Year, Month, T2M or PRECTOTCORR is
dropped whole by the shared monthly-weather cleaning. -/
theorem cleanWeatherRows_cons_of_null {b : RawWeatherRow}
    (hb : b.year = none ∨ b.month = none ∨ b.t2m = none ∨
      b.prectotcorr = none) (l : List RawWeatherRow) :
    cleanWeatherRows (b :: l) = cleanWeatherRows l := by
  rcases b with ⟨bs, by_, bm, bt, bp⟩
  unfold cleanWeatherRows
  rw [List.filterMap_cons]
  cases by_ <;> cases bm <;> cases bt <;> cases bp <;>
    first
    | rfl
    | simp at hb

/-! ### The claims -/

/-- C1: every row of the growing-season aggregation of either merger
variant carries avg_temp_growing equal to the arithmetic mean of T2M over
its (State, Year) group's rows with Month in {4..9}, and
total_rain_growing equal to the raw sum of PRECTOTCORR over those rows
(raw-sum variant, `merge_yield_weather.py`) or the sum of PRECTOTCORR
times days-in-month (calendar-corrected variant,
`fix_weather_and_merge.py`); on the spec's two-month IOWA 2020 example
the results are 15.0, 9.0, and 276.0. -/
theorem growing_season_aggregation_correct :
    (∀ (rows : List MonthlyWeatherRecord) (g : GrowingSeasonWeather),
      g ∈ growingAgg rows →
        g.avg_temp_growing = ((growingGroup rows g.key).map (·.t2m)).sum /
          ((growingGroup rows g.key).length : ℚ) ∧
        g.total_rain_growing =
          ((growingGroup rows g.key).map (·.prectotcorr)).sum) ∧
    (∀ (rows : List MonthlyWeatherRecord) (w2 : List RainMonthlyRow)
      (g : GrowingSeasonWeather),
      addMonthlyRain rows = .ok w2 → g ∈ growingAggFix w2 →
        g.avg_temp_growing = ((growingGroup rows g.key).map (·.t2m)).sum /
          ((growingGroup rows g.key).length : ℚ) ∧
        g.total_rain_growing = ((growingGroup rows g.key).map fun r =>
          r.prectotcorr * ((get_days_in_month r.year r.month : Int) : ℚ)).sum) ∧
    growingAgg (cleanWeatherRows exampleWeatherFile.rows) =
      [{ state := "IOWA", year := 2020, avg_temp_growing := 15,
         total_rain_growing := 9 }] ∧
    (addMonthlyRain (cleanWeatherRows exampleWeatherFile.rows)).map
        growingAggFix =
      .ok [{ state := "IOWA", year := 2020, avg_temp_growing := 15,
             total_rain_growing := 276 }] :=
  ⟨fun _ _ hg => growingAgg_spec hg,
   fun _ _ _ hok hg => growingAggFix_spec hok hg,
   by decide, by decide⟩

/-- Witness for C1: the IOWA 2020 example instantiates both general
parts — mean temperature 15, raw rain sum 9, calendar-corrected rain sum
276. -/
theorem growing_season_aggregation_correct_witness :
    ((15 : ℚ) =
      ((growingGroup (cleanWeatherRows exampleWeatherFile.rows)
          ("IOWA", 2020)).map (·.t2m)).sum /
        ((growingGroup (cleanWeatherRows exampleWeatherFile.rows)
          ("IOWA", 2020)).length : ℚ)) ∧
    ((9 : ℚ) =
      ((growingGroup (cleanWeatherRows exampleWeatherFile.rows)
          ("IOWA", 2020)).map (·.prectotcorr)).sum) ∧
    ((276 : ℚ) =
      ((growingGroup (cleanWeatherRows exampleWeatherFile.rows)
          ("IOWA", 2020)).map fun r =>
        r.prectotcorr * ((get_days_in_month r.year r.month : Int) : ℚ)).sum) := by
  refine ⟨?_, ?_, ?_⟩
  · exact (growing_season_aggregation_correct.1
      (cleanWeatherRows exampleWeatherFile.rows)
      { state := "IOWA", year := 2020, avg_temp_growing := 15,
        total_rain_growing := 9 } (by decide)).1
  · exact (growing_season_aggregation_correct.1
      (cleanWeatherRows exampleWeatherFile.rows)
      { state := "IOWA", year := 2020, avg_temp_growing := 15,
        total_rain_growing := 9 } (by decide)).2
  · exact (growing_season_aggregation_correct.2.1
      (cleanWeatherRows exampleWeatherFile.rows)
      ((cleanWeatherRows exampleWeatherFile.rows).map withMonthlyRain)
      { state := "IOWA", year := 2020, avg_temp_growing := 15,
        total_rain_growing := 276 } (by decide) (by decide)).2

/-- C2: both mergers perform a strict inner join on (State, Year): every
row of a successful final dataset carries a key present in the cleaned
yield table AND in the growing-season weather table, so a pair present on
only one side never appears in the output. -/
theorem final_dataset_strict_inner_join :
    (∀ (yf : RawYieldFile) (wf : RawWeatherFile) (out : List FinalRow),
      mergeMain yf wf = .ok out → ∀ f ∈ out,
        (∃ y ∈ mergeCleanYield yf.rows,
          CleanYieldRow.key y = FinalRow.key f) ∧
        (∃ g ∈ growingAgg (cleanWeatherRows wf.rows),
          GrowingSeasonWeather.key g = FinalRow.key f)) ∧
    (∀ (wf : RawWeatherFile) (yf : RawYieldFile) (out : List FinalRow)
      (w2 : List RainMonthlyRow),
      fixMain wf yf = .ok out →
      addMonthlyRain (cleanWeatherRows wf.rows) = .ok w2 → ∀ f ∈ out,
        (∃ y ∈ fixCleanYield yf.rows,
          CleanYieldRow.key y = FinalRow.key f) ∧
        (∃ g ∈ growingAggFix w2,
          GrowingSeasonWeather.key g = FinalRow.key f)) := by
  constructor
  · intro yf wf out h f hf
    obtain rfl := mergeMain_ok h
    obtain ⟨y, hy, g, hg, hs, hyr, rfl⟩ :=
      mem_innerMerge_spec (mem_of_mem_finalizeMerged hf)
    exact ⟨⟨y, hy, rfl⟩,
      ⟨g, hg, by simp [GrowingSeasonWeather.key, FinalRow.key, hs, hyr]⟩⟩
  · intro wf yf out w2 h hw2 f hf
    obtain ⟨w2x, heq, rfl⟩ := fixMain_ok h
    obtain rfl : w2x = w2 := Except.ok.inj (heq.symm.trans hw2)
    obtain ⟨y, hy, g, hg, hs, hyr, rfl⟩ :=
      mem_innerMerge_spec (mem_of_mem_finalizeMerged hf)
    exact ⟨⟨y, hy, rfl⟩,
      ⟨g, hg, by simp [GrowingSeasonWeather.key, FinalRow.key, hs, hyr]⟩⟩

/-- Witness for C2: the single row of a concrete merged dataset has its
key on both sides. -/
theorem final_dataset_strict_inner_join_witness :
    (∃ y ∈ mergeCleanYield mergerYieldFile.rows,
      CleanYieldRow.key y = FinalRow.key
        { year := 2020, state := "IOWA", corn_yield_bu_acre := 180,
          avg_temp_growing := 15, total_rain_growing := 9 }) ∧
    (∃ g ∈ growingAgg (cleanWeatherRows exampleWeatherFile.rows),
      GrowingSeasonWeather.key g = FinalRow.key
        { year := 2020, state := "IOWA", corn_yield_bu_acre := 180,
          avg_temp_growing := 15, total_rain_growing := 9 }) :=
  final_dataset_strict_inner_join.1 mergerYieldFile exampleWeatherFile
    [{ year := 2020, state := "IOWA", corn_yield_bu_acre := 180,
       avg_temp_growing := 15, total_rain_growing := 9 }]
    (by decide) _ (by decide)

/-- C3 counterexample: the calendar-corrected variant on a weather file
lacking T2M and PRECTOTCORR fails with a pandas KeyError naming only
T2M — not a configuration error listing the missing columns; and the
raw-sum variant on a yield file lacking both Year and State raises a
ValueError naming only Year even though State is also missing. -/
theorem merger_config_error_counterexample :
    fixMain noTempWeatherFile okColsYieldFile =
      .error (.keyError ("T2M")) ∧
    listsMissingColumns (.keyError ("T2M")) = false ∧
    mergeMain noYearStateYieldFile noTempWeatherFile =
      .error (.missingColumn ("Yield") ("Year") ["corn_yield_bu_acre"]) ∧
    ("State" ∈ mergeYieldCols ∧ "State" ∉ noYearStateYieldFile.columns) :=
  by decide

/-- C3 as amended: on an input lacking required columns each variant
fails before producing any output, but the raw-sum variant raises a
configuration ValueError naming the FIRST missing column (and the found
columns), while the calendar-corrected variant raises a pandas KeyError
naming the first missing column it accesses, listing nothing else. -/
theorem merger_missing_column_failures :
    (∀ (yf : RawYieldFile) (wf : RawWeatherFile) (c : String),
      mergeYieldCols.find? (fun x => decide (x ∉ yf.columns)) = some c →
      mergeMain yf wf = .error (.missingColumn ("Yield") c yf.columns)) ∧
    (∀ (yf : RawYieldFile) (wf : RawWeatherFile) (c : String),
      (∀ x ∈ mergeYieldCols, x ∈ yf.columns) →
      mergeWeatherCols.find? (fun x => decide (x ∉ wf.columns)) = some c →
      mergeMain yf wf = .error (.missingColumn ("Weather") c wf.columns)) ∧
    (∀ (wf : RawWeatherFile) (yf : RawYieldFile) (c : String),
      fixWeatherAccess.find? (fun x => decide (x ∉ wf.columns)) = some c →
      fixMain wf yf = .error (.keyError c)) := by
  refine ⟨?_, ?_, ?_⟩
  · intro yf wf c h
    have h1 : checkColsEach ("Yield") mergeYieldCols yf.columns =
        .error (.missingColumn ("Yield") c yf.columns) := by
      unfold checkColsEach
      rw [h]
    unfold mergeMain
    rw [h1]
  · intro yf wf c hall h
    have h1 : checkColsEach ("Yield") mergeYieldCols yf.columns = .ok () := by
      unfold checkColsEach
      rw [List.find?_eq_none.2 fun x hx => by simpa using hall x hx]
    have h2 : checkColsEach ("Weather") mergeWeatherCols wf.columns =
        .error (.missingColumn ("Weather") c wf.columns) := by
      unfold checkColsEach
      rw [h]
    unfold mergeMain
    rw [h1, h2]
  · intro wf yf c h
    have h1 : accessCols fixWeatherAccess wf.columns =
        .error (.keyError c) := by
      unfold accessCols
      rw [h]
    unfold fixMain
    rw [h1]

/-- Witness for C3 (amended): the raw-sum merger on a yield file missing
Year aborts with the ValueError naming Year. -/
theorem merger_missing_column_failures_witness :
    mergeMain noYearStateYieldFile exampleWeatherFile =
      .error (.missingColumn ("Yield") ("Year") ["corn_yield_bu_acre"]) :=
  merger_missing_column_failures.1 noYearStateYieldFile exampleWeatherFile
    ("Year") (by decide)

/-- C4 counterexample: the same two duplicate-key yield rows presented in
the two possible orders produce different survivors (100 vs 200), so the
survivor IS determined by input order, not by a sort on (State, Year)
independent of it. -/
theorem dedup_survivor_counterexample :
    dupYieldFileB.rows = dupYieldFileA.rows.reverse ∧
    clean_usda_corn_yield dupYieldFileA =
      .ok [{ year := 2020, state := "IOWA", corn_yield_bu_acre := 100 }] ∧
    clean_usda_corn_yield dupYieldFileB =
      .ok [{ year := 2020, state := "IOWA", corn_yield_bu_acre := 200 }] ∧
    (100 : ℚ) ≠ 200 := by decide

/-- C4 as amended: exactly one row per (State, Year) survives cleaning,
deterministically — the keys of the output are pairwise distinct, every
surviving row is the FIRST valid input row (in raw input order, the
deduplication running before the sort) bearing its key, and every valid
input key is represented. -/
theorem dedup_keeps_first_input_occurrence :
    ∀ (f : RawYieldFile) (out : List CleanYieldRow),
      clean_usda_corn_yield f = .ok out →
      (out.map CleanYieldRow.key).Nodup ∧
      (∀ r ∈ out, (validYieldRows f.rows).find?
        (fun v => decide (v.key = r.key)) = some r) ∧
      (∀ v ∈ validYieldRows f.rows, ∃ r ∈ out, r.key = v.key) := by
  intro f out h
  obtain rfl := clean_usda_ok h
  refine ⟨nodup_keys_sort_dropDup CleanYieldRow.key _, ?_, ?_⟩
  · intro r hr
    exact (dropDupBy_spec ((List.mem_insertionSort _).1 hr)).2
  · intro v hv
    have hk : v.key ∈ (dropDupBy CleanYieldRow.key []
        (validYieldRows f.rows)).map CleanYieldRow.key :=
      key_mem_dropDupBy (List.mem_map.2 ⟨v, hv, rfl⟩) (by simp)
    obtain ⟨r, hr, hrk⟩ := List.mem_map.1 hk
    exact ⟨r, (List.mem_insertionSort _).2 hr, hrk⟩

/-- Witness for C4 (amended): on the duplicate-key file the survivor is
the first input occurrence. -/
theorem dedup_keeps_first_input_occurrence_witness :
    (validYieldRows dupYieldFileA.rows).find?
      (fun v => decide (v.key =
        ({ year := 2020, state := "IOWA", corn_yield_bu_acre := 100 } :
          CleanYieldRow).key)) =
      some { year := 2020, state := "IOWA", corn_yield_bu_acre := 100 } :=
  (dedup_keeps_first_input_occurrence dupYieldFileA
    [{ year := 2020, state := "IOWA", corn_yield_bu_acre := 100 }]
    (by decide)).2.1 _ (by decide)

/-- C5 counterexample: a raw row with the negative numeric value -5
survives cleaning unchanged, so the clean yield table can carry a
negative corn_yield_bu_acre. -/
theorem clean_yield_negative_counterexample :
    clean_usda_corn_yield negYieldFile =
      .ok [{ year := 2020, state := "IOWA",
             corn_yield_bu_acre := mkRat (-5) 1 }] ∧
    mkRat (-5) 1 < 0 := by decide

/-- C5 as amended: the cleaner guarantees a numeric (non-null) yield in
every output row, and the outputs are non-negative whenever every numeric
raw Value is — non-negativity is inherited from the input, not
enforced. -/
theorem clean_yield_nonneg_of_nonneg_input :
    ∀ (f : RawYieldFile) (out : List CleanYieldRow),
      clean_usda_corn_yield f = .ok out →
      (∀ r ∈ f.rows, ∀ v, r.value = some v → 0 ≤ v) →
      ∀ r ∈ out, 0 ≤ r.corn_yield_bu_acre := by
  intro f out h hpos r hr
  obtain rfl := clean_usda_ok h
  have hvalid : r ∈ validYieldRows f.rows :=
    mem_of_mem_dropDupBy ((List.mem_insertionSort _).1 hr)
  obtain ⟨a, ha, hm⟩ := List.mem_filterMap.1 hvalid
  rcases a with ⟨ay, as_, av⟩
  cases ay <;> cases av <;> simp only [validYieldRows] at hm
  · exact absurd hm (by simp)
  · exact absurd hm (by simp)
  · exact absurd hm (by simp)
  · rename_i y v
    obtain rfl := Option.some.inj hm
    exact hpos _ ha v rfl

/-- Witness for C5 (amended): a non-negative input yields a non-negative
output row. -/
theorem clean_yield_nonneg_of_nonneg_input_witness :
    0 ≤ ({ year := 2020, state := "IOWA", corn_yield_bu_acre := 180 } :
      CleanYieldRow).corn_yield_bu_acre := by
  refine clean_yield_nonneg_of_nonneg_input nonnegYieldFile
    [{ year := 2020, state := "IOWA", corn_yield_bu_acre := 180 }]
    (by decide) ?_ _ (by decide)
  intro r hr v hv
  have : r = ⟨some 2020, some ("IOWA"), some 180⟩ := by
    simpa [nonnegYieldFile] using hr
  subst this
  obtain rfl := Option.some.inj hv.symm
  decide

/-- C6: a raw yield file missing any of Year, State, Value makes the
cleaner abort with a ValueError whose payload enumerates exactly the
missing columns and all found columns, and no CSV output is produced. -/
theorem yield_cleaner_aborts_on_missing_columns :
    ∀ f : RawYieldFile, (∃ c ∈ keep_cols, c ∉ f.columns) →
      clean_usda_corn_yield f =
        .error (.missingColumns
          (keep_cols.filter fun c => decide (c ∉ f.columns)) f.columns) ∧
      (∀ c, c ∈ keep_cols.filter (fun c => decide (c ∉ f.columns)) ↔
        (c ∈ keep_cols ∧ c ∉ f.columns)) ∧
      cleanYieldCsv f =
        .error (.missingColumns
          (keep_cols.filter fun c => decide (c ∉ f.columns)) f.columns) := by
  intro f h
  obtain ⟨c, hc, hnc⟩ := h
  have hne : (keep_cols.filter fun c => decide (c ∉ f.columns)) ≠ [] :=
    List.ne_nil_of_mem (List.mem_filter.2 ⟨hc, by simpa using hnc⟩)
  have h1 : clean_usda_corn_yield f =
      .error (.missingColumns
        (keep_cols.filter fun c => decide (c ∉ f.columns)) f.columns) := by
    simp only [clean_usda_corn_yield]
    rw [if_pos hne]
  refine ⟨h1, ?_, ?_⟩
  · intro x
    simp [List.mem_filter]
  · unfold cleanYieldCsv
    rw [h1]
    rfl

/-- Witness for C6: a file with only Year and State aborts naming
Value. -/
theorem yield_cleaner_aborts_on_missing_columns_witness :
    clean_usda_corn_yield
      { columns := ["Year", "State"], rows := [] } =
      .error (.missingColumns ["Value"] ["Year", "State"]) :=
  (yield_cleaner_aborts_on_missing_columns
    { columns := ["Year", "State"], rows := [] }
    ⟨"Value", by decide, by decide⟩).1

/-- C7: (State, Year) is a unique key of the clean yield table, of the
growing-season weather table, and of the final merged dataset. -/
theorem state_year_unique_key :
    (∀ (f : RawYieldFile) (out : List CleanYieldRow),
      clean_usda_corn_yield f = .ok out →
        (out.map CleanYieldRow.key).Nodup) ∧
    (∀ rows : List MonthlyWeatherRecord,
      ((growingAgg rows).map GrowingSeasonWeather.key).Nodup) ∧
    (∀ (yf : RawYieldFile) (wf : RawWeatherFile) (out : List FinalRow),
      mergeMain yf wf = .ok out → (out.map FinalRow.key).Nodup) := by
  refine ⟨?_, ?_, ?_⟩
  · intro f out h
    obtain rfl := clean_usda_ok h
    exact nodup_keys_sort_dropDup CleanYieldRow.key _
  · intro rows
    simp only [growingAgg, List.map_map, Function.comp_def,
      GrowingSeasonWeather.key, Prod.mk.eta, List.map_id']
    exact nodup_sortedGroupKeys _
  · intro yf wf out h
    obtain rfl := mergeMain_ok h
    unfold finalizeMerged
    exact nodup_keys_sort_dropDup FinalRow.key _

/-- Witness for C7: key uniqueness at a concrete cleaned table and a
concrete merged dataset. -/
theorem state_year_unique_key_witness :
    (([{ year := 2019, state := "IOWA", corn_yield_bu_acre := 170 },
       { year := 2020, state := "IOWA", corn_yield_bu_acre := 180 }] :
      List CleanYieldRow).map CleanYieldRow.key).Nodup ∧
    (([{ year := 2020, state := "IOWA", corn_yield_bu_acre := 180,
         avg_temp_growing := 15, total_rain_growing := 9 }] :
      List FinalRow).map FinalRow.key).Nodup := by
  constructor
  · exact state_year_unique_key.1
      { columns := ["Year", "State", "Value"],
        rows := [⟨some 2020, some ("IOWA"), some 180⟩,
                 ⟨some 2019, some ("IOWA"), some 170⟩] } _ (by decide)
  · exact state_year_unique_key.2.2 mergerYieldFile exampleWeatherFile _
      (by decide)

/-- C8 counterexample: six IOWA 2020 growing-month fetcher rows, every
one with a null precipitation value, still produce a GrowingSeasonWeather
row — with total_rain_growing 0 — rather than no row. -/
theorem fetcher_null_rain_counterexample :
    nullRainRows.all (fun r => decide (r.prectotcorr = none)) = true ∧
    nullRainRows.length = 6 ∧
    weather_growing nullRainRows =
      [{ state := "IOWA", year := 2020, avg_temp_growing := some 10,
         total_rain_growing := 0 }] := by decide

/-- C8 as amended: the fetcher drops nothing before aggregating; a
(State, Year) with at least one growing-season row always yields an
output row whose rain total is the pandas null-skipping sum of its
precipitation values (0 when all are null) and whose mean temperature is
null exactly when every T2M of the group is null. -/
theorem fetcher_produces_row_despite_nulls :
    ∀ (rows : List PowerMonthlyRow) (k : StateYear),
      (∃ r ∈ rows, r.month ∈ GROWING_MONTHS ∧ (r.state, r.year) = k) →
      ∃ g ∈ weather_growing rows, (g.state, g.year) = k ∧
        g.total_rain_growing =
          ((powerGrowingGroup rows k).filterMap (·.prectotcorr)).sum ∧
        (g.avg_temp_growing = none ↔
          (powerGrowingGroup rows k).filterMap (·.t2m) = []) :=
  fun _ _ h => weather_growing_mem h

/-- Witness for C8 (amended): the all-null-precipitation IOWA 2020 group
yields a row with rain total equal to the (empty) non-null sum. -/
theorem fetcher_produces_row_despite_nulls_witness :
    ∃ g ∈ weather_growing nullRainRows, (g.state, g.year) = ("IOWA", 2020) ∧
      g.total_rain_growing =
        ((powerGrowingGroup nullRainRows ("IOWA", 2020)).filterMap
          (·.prectotcorr)).sum ∧
      (g.avg_temp_growing = none ↔
        (powerGrowingGroup nullRainRows ("IOWA", 2020)).filterMap
          (·.t2m) = []) :=
  fetcher_produces_row_despite_nulls nullRainRows ("IOWA", 2020) (by decide)

/-- C9: the yield cleaner is a deterministic function of its input file —
two runs on equal inputs produce identical CSV text and identical
tables. -/
theorem yield_cleaner_deterministic :
    ∀ f1 f2 : RawYieldFile, f1 = f2 →
      cleanYieldCsv f1 = cleanYieldCsv f2 ∧
      clean_usda_corn_yield f1 = clean_usda_corn_yield f2 := by
  intro f1 f2 h
  subst h
  exact ⟨rfl, rfl⟩

/-- Witness for C9: two runs on the same concrete file agree. -/
theorem yield_cleaner_deterministic_witness :
    cleanYieldCsv nonnegYieldFile = cleanYieldCsv nonnegYieldFile :=
  (yield_cleaner_deterministic nonnegYieldFile nonnegYieldFile rfl).1

/-- C10 counterexample: a monthly row with a null State (and every other
field present) is NOT excluded: `astype(str)` turns the null into the
string NAN, the row survives cleaning, and it produces a whole
growing-season group keyed (NAN, 2020) in the calendar-corrected
pipeline. -/
theorem null_state_not_excluded_counterexample :
    nanStateWeatherFile.rows = [⟨none, some 2020, some 4, some 10, some 3⟩] ∧
    cleanWeatherRows nanStateWeatherFile.rows =
      [{ state := "NAN", year := 2020, month := 4, t2m := 10,
         prectotcorr := 3 }] ∧
    (addMonthlyRain (cleanWeatherRows nanStateWeatherFile.rows)).map
        growingAggFix =
      .ok [{ state := "NAN", year := 2020, avg_temp_growing := 10,
             total_rain_growing := 90 }] := by decide

/-- C10 as amended: in the calendar-corrected merger a monthly row with a
null Year, Month, T2M or PRECTOTCORR (null State excepted — it becomes
the string NAN) is excluded entirely before aggregation: deleting such a
row changes neither the cleaned monthly table nor the whole pipeline
output, so a month missing only its precipitation contributes nothing to
avg_temp_growing either, and vice versa. -/
theorem fix_merger_drops_rows_with_null_fields :
    ∀ (cols : List String) (l1 l2 : List RawWeatherRow)
      (b : RawWeatherRow) (yf : RawYieldFile),
      (b.year = none ∨ b.month = none ∨ b.t2m = none ∨
        b.prectotcorr = none) →
      cleanWeatherRows (l1 ++ b :: l2) = cleanWeatherRows (l1 ++ l2) ∧
      fixMain { columns := cols, rows := l1 ++ b :: l2 } yf =
        fixMain { columns := cols, rows := l1 ++ l2 } yf := by
  intro cols l1 l2 b yf hb
  have happ : ∀ u v : List RawWeatherRow,
      cleanWeatherRows (u ++ v) = cleanWeatherRows u ++ cleanWeatherRows v := by
    intro u v
    unfold cleanWeatherRows
    rw [List.filterMap_append]
  have hclean : cleanWeatherRows (l1 ++ b :: l2) =
      cleanWeatherRows (l1 ++ l2) := by
    rw [happ, happ, cleanWeatherRows_cons_of_null hb]
  refine ⟨hclean, ?_⟩
  unfold fixMain
  rw [hclean]

/-- Witness for C10 (amended): appending a row whose only null is its
precipitation leaves the cleaned monthly table unchanged. -/
theorem fix_merger_drops_rows_with_null_fields_witness :
    cleanWeatherRows (exampleWeatherFile.rows ++ nullPrecipRow :: []) =
      cleanWeatherRows (exampleWeatherFile.rows ++ []) :=
  (fix_merger_drops_rows_with_null_fields mergeWeatherCols
    exampleWeatherFile.rows [] nullPrecipRow okColsYieldFile
    (by decide)).1
